import Mathlib

/-!
Verification development for the gbif-downloader repository.

The Python modules `gbif_downloader/utils.py`, `gbif_downloader/filters.py`
and `gbif_downloader/api.py` are shallowly embedded below: pure functions
become Lean functions, the stateful record filter threads its seen-key set
explicitly, network calls are modelled by a supplied response function, and
Python exceptions become `Except` values.  Machine floats that only ever get
compared (coordinate uncertainty, elevation) are modelled as rationals;
Python string truthiness and int truthiness are modelled explicitly.
-/

/-- Truthiness of a Python `str | None` value: `None` and the empty string
are falsy. -/
def strTruthy : Option String → Bool
  | none => false
  | some s => s ≠ ""

/-- Character-list version of Python string containment: is `needle` a
contiguous run at the head of `haystack`? -/
def hasPrefixChars : List Char → List Char → Bool
  | [], _ => true
  | _ :: _, [] => false
  | a :: as, b :: bs => a = b && hasPrefixChars as bs

/-- Character-list version of Python `needle in haystack`. -/
def hasSubstrChars (needle : List Char) : List Char → Bool
  | [] => needle.isEmpty
  | b :: bs => hasPrefixChars needle (b :: bs) || hasSubstrChars needle bs

/-- Python `needle in haystack` on strings. -/
def substrOf (needle haystack : String) : Bool :=
  hasSubstrChars needle.data haystack.data

/-- Embeds `utils.validate_year`: rejects years before 1700 and years beyond the
current calendar year plus one.  The wall clock read by `datetime.now()` is
passed in as `currentYear`. -/
def validate_year (currentYear : Int) (year : Int) (fieldName : String) :
    Except String Int :=
  if year < 1700 then
    .error (fieldName ++ " must be >= 1700")
  else if year > currentYear + 1 then
    .error (fieldName ++ " cannot be in the future")
  else
    .ok year

/-- Embeds `utils.validate_positive_int`. -/
def validate_positive_int (value : Int) (fieldName : String)
    (allow_zero : Bool) : Except String Int :=
  let minVal : Int := if allow_zero then 0 else 1
  if value < minVal then
    .error (fieldName ++ " is below the minimum")
  else
    .ok value

/-- Embeds `utils.clean_string_list` on the list form of its input: keep the
truthy entries whose strip is truthy, stripped and lower-cased.  (The
comma-splitting of a plain-string input is done by the caller side and is
not needed by any claim.) -/
def clean_string_list (items : List String) : List String :=
  (items.filter (fun item => item ≠ "" && item.trim ≠ "")).map
    (fun item => item.trim.toLower)

/-- A coordinate-uncertainty value as it sits in a record: a numeric value
(Python float, modelled as a rational) or a non-numeric payload on which
`float(...)` raises. -/
inductive UncValue where
  | num (q : ℚ)
  | nonNumeric
  deriving DecidableEq, Repr

/-- Embeds `api.OccurrenceRecord`: one occurrence.  Optional fields are `Option`;
only the identifier is required. -/
structure OccurrenceRecord where
  key : Int := 0
  year : Option Int := none
  event_date : Option String := none
  latitude : Option ℚ := none
  longitude : Option ℚ := none
  coordinate_uncertainty : Option UncValue := none
  elevation : Option ℚ := none
  locality : Option String := none
  genus : Option String := none
  species : Option String := none
  scientific_name : Option String := none
  specific_epithet : Option String := none
  institution_code : Option String := none
  catalog_number : Option String := none
  recorded_by : Option String := none
  country : Option String := none
  state_province : Option String := none
  basis_of_record : Option String := none
  deriving DecidableEq, Repr

/-- Embeds `filters.FilterConfig` as it stands after `__post_init__` ran: years
resolved, lists cleaned. -/
structure FilterConfig where
  genus : Option String
  species_list : List String
  family : Option String
  year_start : Int
  year_end : Int
  uncertainty_max : Int
  require_year : Bool
  require_elevation : Bool
  keep_unknown_uncertainty : Bool
  countries : List String
  institutions : List String
  basis_of_record : List String
  deduplicate : Bool
  deriving DecidableEq, Repr

/-- The caller-supplied constructor arguments of `FilterConfig`, before
`__post_init__` validation, with the dataclass defaults. -/
structure FilterConfigInput where
  genus : Option String := none
  species_list : List String := []
  family : Option String := none
  year_start : Int := 1800
  year_end : Option Int := none
  uncertainty_max : Int := 1000
  require_year : Bool := true
  require_elevation : Bool := true
  keep_unknown_uncertainty : Bool := true
  countries : List String := []
  institutions : List String := []
  basis_of_record : List String := ["PRESERVED_SPECIMEN"]
  deduplicate : Bool := true
  deriving DecidableEq, Repr

/-- Embeds `FilterConfig.__post_init__`: taxonomy anchor check, year validation
(note the Python truthiness guards: a zero `year_start` skips validation,
a `None` or zero `year_end` is replaced by the current year), the
start-after-end check, uncertainty validation and list cleaning.  A raised
`ValueError` becomes `.error`. -/
def FilterConfig.post_init (currentYear : Int) (inp : FilterConfigInput) :
    Except String FilterConfig :=
  if strTruthy inp.genus = false ∧ strTruthy inp.family = false then
    .error "Either genus or family must be specified"
  else
    match (if inp.year_start ≠ 0 then
             validate_year currentYear inp.year_start "year_start"
           else .ok inp.year_start) with
    | .error e => .error e
    | .ok ys =>
      match (match inp.year_end with
             | some ye =>
               if ye ≠ 0 then validate_year currentYear ye "year_end"
               else .ok currentYear
             | none => .ok currentYear) with
      | .error e => .error e
      | .ok ye =>
        if ys > ye then
          .error "year_start cannot be after year_end"
        else
          match validate_positive_int inp.uncertainty_max "uncertainty_max"
              true with
          | .error e => .error e
          | .ok um =>
            .ok { genus := inp.genus
                  species_list := clean_string_list inp.species_list
                  family := inp.family
                  year_start := ys
                  year_end := ye
                  uncertainty_max := um
                  require_year := inp.require_year
                  require_elevation := inp.require_elevation
                  keep_unknown_uncertainty := inp.keep_unknown_uncertainty
                  countries := (clean_string_list inp.countries).map
                    String.toUpper
                  institutions := clean_string_list inp.institutions
                  basis_of_record := inp.basis_of_record
                  deduplicate := inp.deduplicate }

/-- Embeds `filters.FilterResult`. -/
structure FilterResult where
  keep : Bool
  reason : Option String := none
  uncertainty_status : String := "known"
  deriving DecidableEq, Repr

/-- Embeds `filters.RecordFilter`: the configuration plus the mutable set of seen
keys, threaded explicitly. -/
structure RecordFilter where
  config : FilterConfig
  seen_keys : List Int
  deriving DecidableEq, Repr

/-- Embeds `RecordFilter.__init__`. -/
def RecordFilter.init (config : FilterConfig) : RecordFilter :=
  { config := config, seen_keys := [] }

/-- Embeds `RecordFilter._check_uncertainty`: classify the coordinate uncertainty
as known, unknown, or exceeded. -/
def check_uncertainty (cfg : FilterConfig) (r : OccurrenceRecord) : String :=
  match r.coordinate_uncertainty with
  | none => "unknown"
  | some .nonNumeric => "unknown"
  | some (.num q) =>
    if q ≤ (cfg.uncertainty_max : ℚ) then "known" else "exceeded"

/-- Embeds `RecordFilter._matches_species`: exact (lower-cased) epithet match
first, then substring match inside the scientific name. -/
def matches_species (cfg : FilterConfig) (r : OccurrenceRecord) : Bool :=
  let epithet := (r.specific_epithet.getD "").toLower
  if cfg.species_list.contains epithet then true
  else
    let sciName := (r.scientific_name.getD "").toLower
    cfg.species_list.any (fun species => substrOf species sciName)

/-- Step 2 of `RecordFilter.apply`: the year checks, in source order. -/
def check_year (cfg : FilterConfig) (r : OccurrenceRecord) :
    Option FilterResult :=
  if cfg.require_year ∧ r.year = none then
    some { keep := false, reason := some "missing_year" }
  else
    match r.year with
    | none => none
    | some y =>
      if y < cfg.year_start then
        some { keep := false, reason := some "year_too_old" }
      else if cfg.year_end ≠ 0 ∧ y > cfg.year_end then
        some { keep := false, reason := some "year_too_new" }
      else none

/-- Step 3 of `RecordFilter.apply`: the elevation check. -/
def check_elevation (cfg : FilterConfig) (r : OccurrenceRecord) :
    Option FilterResult :=
  if cfg.require_elevation ∧ r.elevation = none then
    some { keep := false, reason := some "missing_elevation" }
  else none

/-- Step 4 of `RecordFilter.apply`: the coordinate-uncertainty check. -/
def check_uncertainty_step (cfg : FilterConfig) (r : OccurrenceRecord) :
    Option FilterResult :=
  let status := check_uncertainty cfg r
  if status = "exceeded" then
    some { keep := false, reason := some "uncertainty_exceeded",
           uncertainty_status := status }
  else if status = "unknown" ∧ cfg.keep_unknown_uncertainty = false then
    some { keep := false, reason := some "uncertainty_unknown",
           uncertainty_status := status }
  else none

/-- Step 5 of `RecordFilter.apply`: the species allow-list. -/
def check_species (cfg : FilterConfig) (r : OccurrenceRecord) :
    Option FilterResult :=
  if cfg.species_list ≠ [] ∧ matches_species cfg r = false then
    some { keep := false, reason := some "species_not_matched" }
  else none

/-- Step 6 of `RecordFilter.apply`: the country allow-list (substring
match against the upper-cased record country). -/
def check_country (cfg : FilterConfig) (r : OccurrenceRecord) :
    Option FilterResult :=
  if cfg.countries ≠ [] ∧
      cfg.countries.any
        (fun c => substrOf c ((r.country.getD "").toUpper)) = false then
    some { keep := false, reason := some "country_not_matched" }
  else none

/-- Step 7 of `RecordFilter.apply`: the institution allow-list (substring
match against the lower-cased institution code). -/
def check_institution (cfg : FilterConfig) (r : OccurrenceRecord) :
    Option FilterResult :=
  if cfg.institutions ≠ [] ∧
      cfg.institutions.any
        (fun i => substrOf i ((r.institution_code.getD "").toLower)) = false
      then
    some { keep := false, reason := some "institution_not_matched" }
  else none

/-- Steps 2-7 of `RecordFilter.apply` in source order; the first failing
check short-circuits.  A surviving record is kept and carries the
uncertainty classification of step 4. -/
def applyChecks (cfg : FilterConfig) (r : OccurrenceRecord) : FilterResult :=
  match check_year cfg r with
  | some res => res
  | none =>
    match check_elevation cfg r with
    | some res => res
    | none =>
      match check_uncertainty_step cfg r with
      | some res => res
      | none =>
        match check_species cfg r with
        | some res => res
        | none =>
          match check_country cfg r with
          | some res => res
          | none =>
            match check_institution cfg r with
            | some res => res
            | none =>
              { keep := true, reason := none,
                uncertainty_status := check_uncertainty cfg r }

/-- Embeds `RecordFilter.apply`: step 1 is deduplication — an already-seen key is
dropped at once, otherwise the key is recorded before any later check
runs — then the pure checks.  Returns the result together with the updated
filter state. -/
def RecordFilter.apply (f : RecordFilter) (r : OccurrenceRecord) :
    FilterResult × RecordFilter :=
  if f.config.deduplicate && f.seen_keys.contains r.key then
    ({ keep := false, reason := some "duplicate" }, f)
  else
    let f' := if f.config.deduplicate then
        { f with seen_keys := r.key :: f.seen_keys }
      else f
    (applyChecks f.config r, f')

/-- The statistics dictionary of `filters.filter_records`, one field per
key. -/
structure FilterStats where
  total : Nat := 0
  kept : Nat := 0
  duplicate : Nat := 0
  missing_year : Nat := 0
  year_too_old : Nat := 0
  year_too_new : Nat := 0
  missing_elevation : Nat := 0
  uncertainty_exceeded : Nat := 0
  uncertainty_unknown_kept : Nat := 0
  uncertainty_unknown_dropped : Nat := 0
  species_not_matched : Nat := 0
  country_not_matched : Nat := 0
  institution_not_matched : Nat := 0
  deriving DecidableEq, Repr

/-- Python `if reason in stats: stats[reason] += 1`: bump the counter whose
key equals `reason`, and do nothing for a reason that is not a key of the
dictionary (such as `uncertainty_unknown`). -/
def FilterStats.bumpReason (s : FilterStats) (reason : String) : FilterStats :=
  if reason = "total" then { s with total := s.total + 1 }
  else if reason = "kept" then { s with kept := s.kept + 1 }
  else if reason = "duplicate" then { s with duplicate := s.duplicate + 1 }
  else if reason = "missing_year" then
    { s with missing_year := s.missing_year + 1 }
  else if reason = "year_too_old" then
    { s with year_too_old := s.year_too_old + 1 }
  else if reason = "year_too_new" then
    { s with year_too_new := s.year_too_new + 1 }
  else if reason = "missing_elevation" then
    { s with missing_elevation := s.missing_elevation + 1 }
  else if reason = "uncertainty_exceeded" then
    { s with uncertainty_exceeded := s.uncertainty_exceeded + 1 }
  else if reason = "uncertainty_unknown_kept" then
    { s with uncertainty_unknown_kept := s.uncertainty_unknown_kept + 1 }
  else if reason = "uncertainty_unknown_dropped" then
    { s with uncertainty_unknown_dropped := s.uncertainty_unknown_dropped + 1 }
  else if reason = "species_not_matched" then
    { s with species_not_matched := s.species_not_matched + 1 }
  else if reason = "country_not_matched" then
    { s with country_not_matched := s.country_not_matched + 1 }
  else if reason = "institution_not_matched" then
    { s with institution_not_matched := s.institution_not_matched + 1 }
  else s

/-- The loop body of `filters.filter_records`, threading the filter state
and the statistics over the record list. -/
def runRecords : RecordFilter → FilterStats → List OccurrenceRecord →
    List OccurrenceRecord × FilterStats
  | _, stats, [] => ([], stats)
  | f, stats, r :: rest =>
    let stats1 := { stats with total := stats.total + 1 }
    let step := f.apply r
    let result := step.1
    let f' := step.2
    if result.keep then
      let stats2 := { stats1 with kept := stats1.kept + 1 }
      let stats3 :=
        if result.uncertainty_status = "unknown" then
          { stats2 with
            uncertainty_unknown_kept := stats2.uncertainty_unknown_kept + 1 }
        else stats2
      let tail := runRecords f' stats3 rest
      (r :: tail.1, tail.2)
    else
      let reason := result.reason.getD "other"
      let stats2 := stats1.bumpReason reason
      let stats3 :=
        if reason = "uncertainty_unknown" then
          { stats2 with
            uncertainty_unknown_dropped :=
              stats2.uncertainty_unknown_dropped + 1 }
        else stats2
      runRecords f' stats3 rest

/-- Embeds `filters.filter_records`: filter a list of records, returning the kept
records in order and the statistics. -/
def filter_records (records : List OccurrenceRecord) (config : FilterConfig) :
    List OccurrenceRecord × FilterStats :=
  runRecords (RecordFilter.init config) {} records

/-- The error taxonomy of `api.py` (`GBIFError` subclasses). -/
inductive GBIFError where
  | taxonNotFound (msg : String)
  | rateLimit (msg : String)
  | apiError (msg : String)
  deriving DecidableEq, Repr

/-- Embeds `api.TaxonMatch`. -/
structure TaxonMatch where
  usage_key : Int
  scientific_name : String
  canonical_name : String
  rank : String
  status : String
  confidence : Int
  match_type : String
  kingdom : Option String := none
  family : Option String := none
  genus : Option String := none
  deriving DecidableEq, Repr

/-- The JSON object of a species-match response, one optional field per key
that `TaxonMatch.from_api_response` reads. -/
structure TaxonMatchData where
  usageKey : Option Int := none
  scientificName : Option String := none
  canonicalName : Option String := none
  rank : Option String := none
  status : Option String := none
  confidence : Option Int := none
  matchType : Option String := none
  kingdom : Option String := none
  family : Option String := none
  genus : Option String := none
  deriving DecidableEq, Repr

/-- Embeds `TaxonMatch.from_api_response`, with the `data.get` defaults. -/
def TaxonMatch.from_api_response (d : TaxonMatchData) : TaxonMatch :=
  { usage_key := d.usageKey.getD 0
    scientific_name := d.scientificName.getD ""
    canonical_name := d.canonicalName.getD ""
    rank := d.rank.getD ""
    status := d.status.getD ""
    confidence := d.confidence.getD 0
    match_type := d.matchType.getD "NONE"
    kingdom := d.kingdom
    family := d.family
    genus := d.genus }

/-- The not-found message of `match_taxon` (Python wraps the name in single
quotes; the quoting characters are immaterial and dropped here). -/
def taxonNotFoundMsg (name : String) : String :=
  "Taxon " ++ name ++ " not found in GBIF."

/-- The strict-mode rank-mismatch message of `match_taxon`, naming the rank
the name actually matched as. -/
def rankMismatchMsg (name matchedRank matchedCanonical expectedRank : String) :
    String :=
  name ++ " matched as " ++ matchedRank ++ " (" ++ matchedCanonical ++
    "), but expected " ++ expectedRank ++ ". Please check the spelling."

/-- The strict-mode canonical-name-mismatch message of `match_taxon`. -/
def nameMismatchMsg (name matchedCanonical matchedRank : String) : String :=
  name ++ " matched to " ++ matchedCanonical ++ " (" ++ matchedRank ++
    "). This may not be what you intended. Please verify."

/-- Embeds `GBIFClient.match_taxon`, with the network call modelled by the
response `data` the species-match endpoint returned.  Raised
`TaxonNotFoundError`s become `.error (.taxonNotFound _)`. -/
def match_taxon (name : String) (rank : Option String) (strict : Bool)
    (data : TaxonMatchData) : Except GBIFError TaxonMatch :=
  let m := TaxonMatch.from_api_response data
  if m.match_type = "NONE" then
    .error (.taxonNotFound (taxonNotFoundMsg name))
  else
    match rank with
    | some rk =>
      if strict ∧ rk ≠ "" then
        if m.rank ≠ rk then
          .error (.taxonNotFound
            (rankMismatchMsg name m.rank m.canonical_name rk))
        else if m.canonical_name.toLower ≠ name.toLower then
          .error (.taxonNotFound (nameMismatchMsg name m.canonical_name m.rank))
        else .ok m
      else .ok m
    | none => .ok m

/-- The JSON object of one occurrence-search result item, one optional
field per key that `OccurrenceRecord.from_api_response` reads. -/
structure OccurrenceData where
  key : Option Int := none
  year : Option Int := none
  eventDate : Option String := none
  decimalLatitude : Option ℚ := none
  decimalLongitude : Option ℚ := none
  coordinateUncertaintyInMeters : Option UncValue := none
  elevation : Option ℚ := none
  locality : Option String := none
  genus : Option String := none
  species : Option String := none
  scientificName : Option String := none
  specificEpithet : Option String := none
  institutionCode : Option String := none
  catalogNumber : Option String := none
  recordedBy : Option String := none
  country : Option String := none
  stateProvince : Option String := none
  basisOfRecord : Option String := none
  deriving DecidableEq, Repr

/-- Embeds `OccurrenceRecord.from_api_response`, with the `data.get` defaults. -/
def OccurrenceRecord.from_api_response (d : OccurrenceData) :
    OccurrenceRecord :=
  { key := d.key.getD 0
    year := d.year
    event_date := d.eventDate
    latitude := d.decimalLatitude
    longitude := d.decimalLongitude
    coordinate_uncertainty := d.coordinateUncertaintyInMeters
    elevation := d.elevation
    locality := d.locality
    genus := d.genus
    species := d.species
    scientific_name := d.scientificName
    specific_epithet := d.specificEpithet
    institution_code := d.institutionCode
    catalog_number := d.catalogNumber
    recorded_by := d.recordedBy
    country := d.country
    state_province := d.stateProvince
    basis_of_record := d.basisOfRecord }

/-- The envelope of one occurrence-search response page. -/
structure SearchPage where
  count : Option Int := none
  results : List OccurrenceData := []
  endOfRecords : Bool := false
  deriving DecidableEq, Repr

/-- Embeds `api.MAX_OFFSET`: the pagination offset ceiling of the search
endpoint. -/
def MAX_OFFSET : Int := 100000

/-- Embeds the page-size cap of `GBIFClient.__init__`: it caps the page size at the API maximum of 300. -/
def clientPageSize (requested : Int) : Int := min requested 300

/-- The observable state of one `iter_occurrences_by_year` run: the seen-key
set, the records yielded so far (in yield order), the trace of search
requests made as (year, offset) pairs, and how many times the cancellation
predicate was polled. -/
structure FetchState where
  seen_keys : List Int := []
  yielded : List OccurrenceRecord := []
  requests : List (Int × Int) := []
  polls : Nat := 0
  deriving DecidableEq, Repr

/-- One poll of the cooperative-cancellation predicate; the predicate is a
function of the poll index, so any sequence of answers is representable. -/
def pollStop (stop_check : Option (Nat → Bool)) (polls : Nat) : Bool :=
  match stop_check with
  | none => false
  | some f => f polls

/-- Record that the cancellation predicate was polled once (only when one
was supplied). -/
def bumpPolls (stop_check : Option (Nat → Bool)) (st : FetchState) :
    FetchState :=
  match stop_check with
  | none => st
  | some _ => { st with polls := st.polls + 1 }

/-- The per-item body of the page loop: build the record, skip it when its
key was already seen, otherwise mark the key seen and yield it. -/
def ingestResults (st : FetchState) : List OccurrenceData → FetchState
  | [] => st
  | item :: rest =>
    let record := OccurrenceRecord.from_api_response item
    if st.seen_keys.contains record.key then ingestResults st rest
    else
      ingestResults
        { st with seen_keys := record.key :: st.seen_keys,
                  yielded := st.yielded ++ [record] } rest

/-- The inner `while True` page loop of `iter_occurrences_by_year` for one
year.  `api year offset` models `_make_request` with those query
parameters; a raised `APIError` (retry exhaustion) is the `.error` case and
is logged-and-broken out of, ending the year.  The loop also ends on a
cancellation poll, an empty result page, an end-of-records flag, a short
page, or the advanced offset reaching `MAX_OFFSET`.  The `fuel` argument
only bounds the recursion and is chosen so it never runs out for a positive
page size. -/
def yearPageLoop (api : Int → Int → Except GBIFError SearchPage)
    (stop_check : Option (Nat → Bool)) (page_size : Int) (year : Int) :
    Nat → Int → FetchState → FetchState
  | 0, _, st => st
  | fuel + 1, offset, st =>
    let polled := pollStop stop_check st.polls
    let st1 := bumpPolls stop_check st
    if polled then st1
    else
      let st2 := { st1 with requests := st1.requests ++ [(year, offset)] }
      match api year offset with
      | .error _ => st2
      | .ok data =>
        if data.results = [] then st2
        else
          let st3 := ingestResults st2 data.results
          if data.endOfRecords || (data.results.length : Int) < page_size then
            st3
          else if offset + page_size ≥ MAX_OFFSET then st3
          else yearPageLoop api stop_check page_size year fuel
            (offset + page_size) st3

/-- Enough fuel that `yearPageLoop` never cuts an execution short when the
page size is at least one: offsets advance by the page size and the loop
ends once the advanced offset reaches `MAX_OFFSET`. -/
def pageFuel : Nat := 100001

/-- Python `range(year_start, year_end + 1)`. -/
def yearRange (year_start year_end : Int) : List Int :=
  (List.range (year_end + 1 - year_start).toNat).map
    (fun i => year_start + (i : Int))

/-- The outer `for year in range(...)` loop of `iter_occurrences_by_year`:
poll for cancellation before each year, then run that year with its own
offset sequence starting at zero. -/
def yearsLoop (api : Int → Int → Except GBIFError SearchPage)
    (stop_check : Option (Nat → Bool)) (page_size : Int) :
    List Int → FetchState → FetchState
  | [], st => st
  | year :: rest, st =>
    let polled := pollStop stop_check st.polls
    let st1 := bumpPolls stop_check st
    if polled then st1
    else
      yearsLoop api stop_check page_size rest
        (yearPageLoop api stop_check page_size year pageFuel 0 st1)

/-- Embeds `GBIFClient.iter_occurrences_by_year`.  The initial count query (for the
progress estimate) is `count_response`; an error there propagates to the
caller, unlike the per-year page errors, which only end their year.  A
`None` `year_end` defaults to the current calendar year.  The result is the
final observable state: everything the generator yielded, in order, plus
the request trace. -/
def iter_occurrences_by_year (count_response : Except GBIFError Int)
    (api : Int → Int → Except GBIFError SearchPage) (currentYear : Int)
    (page_size : Int) (year_start : Int) (year_end : Option Int)
    (stop_check : Option (Nat → Bool)) : Except GBIFError FetchState :=
  match count_response with
  | .error e => .error e
  | .ok _total =>
    let ye := year_end.getD currentYear
    .ok (yearsLoop api stop_check page_size (yearRange year_start ye) {})

/-! ### Concrete scenarios used by the claims -/

/-- First page of the mocked single-year response sequence (page size 2). -/
def c1page1 : SearchPage :=
  { count := some 4
    results := [ { key := some 11, year := some 2020 },
                 { key := some 12, year := some 2020 } ]
    endOfRecords := false }

/-- Second and last page of the mocked sequence, reporting end of
records. -/
def c1page2 : SearchPage :=
  { count := some 4
    results := [ { key := some 13, year := some 2020 },
                 { key := some 14, year := some 2020 } ]
    endOfRecords := true }

/-- The mocked search endpoint of the single-year, two-page scenario. -/
def c1api : Int → Int → Except GBIFError SearchPage :=
  fun year offset =>
    if year = 2020 ∧ offset = 0 then .ok c1page1
    else if year = 2020 ∧ offset = 2 then .ok c1page2
    else .error (.apiError "unexpected request")

/-- The one result page of the error-containment scenario, served for the
second year. -/
def c2page : SearchPage :=
  { count := some 2
    results := [ { key := some 21, year := some 2021 },
                 { key := some 22, year := some 2021 } ]
    endOfRecords := true }

/-- Mocked endpoint whose year-2020 requests fail with `APIError` after
retry exhaustion while year 2021 succeeds. -/
def c2api : Int → Int → Except GBIFError SearchPage :=
  fun year offset =>
    if year = 2021 ∧ offset = 0 then .ok c2page
    else .error (.apiError "retries exhausted")

/-- Mocked endpoint on which every page request fails. -/
def c2errApi : Int → Int → Except GBIFError SearchPage :=
  fun _ _ => .error (.apiError "retries exhausted")

/-- The constructor arguments of the end-to-end filter scenario. -/
def c3input : FilterConfigInput :=
  { genus := some "Nebria", year_start := 1900, year_end := some 2024,
    uncertainty_max := 1000, require_year := true, require_elevation := false,
    keep_unknown_uncertainty := true }

/-- The configuration the end-to-end scenario constructs. -/
def c3cfg : FilterConfig :=
  { genus := some "Nebria", species_list := [], family := none,
    year_start := 1900, year_end := 2024, uncertainty_max := 1000,
    require_year := true, require_elevation := false,
    keep_unknown_uncertainty := true, countries := [], institutions := [],
    basis_of_record := ["PRESERVED_SPECIMEN"], deduplicate := true }

/-- Scenario record 1: year 2020, uncertainty 50 m, elevation 1500 m. -/
def c3r1 : OccurrenceRecord :=
  { key := 1, year := some 2020, coordinate_uncertainty := some (.num 50),
    elevation := some 1500 }

/-- Scenario record 2: no year. -/
def c3r2 : OccurrenceRecord := { key := 2 }

/-- Scenario record 3: year 2020, uncertainty 5000 m. -/
def c3r3 : OccurrenceRecord :=
  { key := 3, year := some 2020, coordinate_uncertainty := some (.num 5000) }

/-- A constructor input with `year_start = 0`: Python int truthiness skips
its validation. -/
def c4input : FilterConfigInput := { genus := some "Nebria", year_start := 0 }

/-- The configuration `c4input` constructs (current year 2025): note the
unvalidated `year_start = 0`. -/
def c4cfg : FilterConfig :=
  { genus := some "Nebria", species_list := [], family := none,
    year_start := 0, year_end := 2025, uncertainty_max := 1000,
    require_year := true, require_elevation := true,
    keep_unknown_uncertainty := true, countries := [], institutions := [],
    basis_of_record := ["PRESERVED_SPECIMEN"], deduplicate := true }

/-- A constructor input supplying both taxonomic anchors. -/
def c9input : FilterConfigInput :=
  { genus := some "Nebria", family := some "Carabidae" }

/-- The configuration `c9input` constructs (current year 2025): both
anchors are accepted. -/
def c9cfg : FilterConfig :=
  { genus := some "Nebria", species_list := [], family := some "Carabidae",
    year_start := 1800, year_end := 2025, uncertainty_max := 1000,
    require_year := true, require_elevation := true,
    keep_unknown_uncertainty := true, countries := [], institutions := [],
    basis_of_record := ["PRESERVED_SPECIMEN"], deduplicate := true }

/-- A default-style configuration with deduplication and required year. -/
def c10cfg : FilterConfig :=
  { genus := some "Nebria", species_list := [], family := none,
    year_start := 1800, year_end := 2025, uncertainty_max := 1000,
    require_year := true, require_elevation := true,
    keep_unknown_uncertainty := true, countries := [], institutions := [],
    basis_of_record := ["PRESERVED_SPECIMEN"], deduplicate := true }

/-- A record with no year: its first application is dropped as
`missing_year`, yet its key is recorded for deduplication. -/
def c10r : OccurrenceRecord := { key := 7 }

/-- The record passes deduplication and every check other than the
coordinate-uncertainty one. -/
def passes_other_checks (f : RecordFilter) (r : OccurrenceRecord) : Prop :=
  ¬(f.config.deduplicate = true ∧ f.seen_keys.contains r.key = true) ∧
  check_year f.config r = none ∧ check_elevation f.config r = none ∧
  check_species f.config r = none ∧ check_country f.config r = none ∧
  check_institution f.config r = none

/-! ### Helper lemmas -/

/-- A year below 1700 is rejected by `validate_year`. -/
theorem validate_year_low (cy year : Int) (f : String) (h : year < 1700) :
    validate_year cy year f = .error (f ++ " must be >= 1700") := by
  unfold validate_year
  rw [if_pos h]

/-- A year beyond the current year plus one is rejected by
`validate_year`. -/
theorem validate_year_future (cy year : Int) (f : String)
    (h0 : ¬ year < 1700) (h1 : year > cy + 1) :
    validate_year cy year f = .error (f ++ " cannot be in the future") := by
  unfold validate_year
  rw [if_neg h0, if_pos h1]

/-! ### C4 -/

/-- C4 (amended): a successfully constructed `FilterConfig` always
satisfies `year_start ≤ year_end`; construction fails for every nonzero
`year_start` below 1700 and for every supplied `year_end` beyond the
current year plus one — but a `year_start` of exactly 0 slips through the
Python truthiness guard (see the counterexample). -/
theorem C4_year_validation :
    (∀ (cy : Int) (inp : FilterConfigInput) (cfg : FilterConfig),
      FilterConfig.post_init cy inp = .ok cfg →
      cfg.year_start ≤ cfg.year_end) ∧
    (∀ (cy : Int) (inp : FilterConfigInput),
      inp.year_start ≠ 0 → inp.year_start < 1700 →
      ∃ e, FilterConfig.post_init cy inp = .error e) ∧
    (∀ (cy : Int) (inp : FilterConfigInput) (ye : Int),
      0 ≤ cy → inp.year_end = some ye → cy + 1 < ye →
      ∃ e, FilterConfig.post_init cy inp = .error e) := by
  refine ⟨?_, ?_, ?_⟩
  · intro cy inp cfg h
    unfold FilterConfig.post_init at h
    split at h
    · exact absurd h (by simp)
    · split at h
      · exact absurd h (by simp)
      · split at h
        · exact absurd h (by simp)
        · split at h
          · exact absurd h (by simp)
          · split at h
            · exact absurd h (by simp)
            · simp only [Except.ok.injEq] at h
              subst h
              simp only [not_lt] at *
              omega
  · intro cy inp h0 h1
    unfold FilterConfig.post_init
    split
    · exact ⟨_, rfl⟩
    · rw [validate_year_low cy inp.year_start "year_start" h1]
      exact ⟨_, rfl⟩
  · intro cy inp ye hcy h0 h1
    unfold FilterConfig.post_init
    split
    · exact ⟨_, rfl⟩
    · split
      · exact ⟨_, rfl⟩
      · split
        · exact ⟨_, rfl⟩
        · rename_i ys _ ye2 heq
          rw [h0] at heq
          simp only at heq
          rw [if_pos (by omega : ye ≠ 0)] at heq
          unfold validate_year at heq
          by_cases hlow : ye < 1700
          · rw [if_pos hlow] at heq
            exact absurd heq (by simp)
          · rw [if_neg hlow, if_pos (by omega)] at heq
            exact absurd heq (by simp)

/-- C4 counterexample: constructing with `year_start = 0 < 1700` succeeds
(current year 2025) — Python `if self.year_start:` treats 0 as falsy and
skips `validate_year`, so not every `year_start < 1700` raises. -/
theorem C4_counterexample :
    FilterConfig.post_init 2025 c4input = .ok c4cfg ∧
    c4input.year_start < 1700 := by
  constructor
  · rfl
  · decide

/-! ### C9 -/

/-- C9 (amended): construction succeeds only when at least one of genus and
family is non-empty (Python truthiness), and raises a ValueError-class
error synchronously when neither is supplied; supplying both anchors is
accepted (see the counterexample). -/
theorem C9_taxonomic_anchor :
    (∀ (cy : Int) (inp : FilterConfigInput) (cfg : FilterConfig),
      FilterConfig.post_init cy inp = .ok cfg →
      strTruthy inp.genus = true ∨ strTruthy inp.family = true) ∧
    (∀ (cy : Int) (inp : FilterConfigInput),
      strTruthy inp.genus = false → strTruthy inp.family = false →
      FilterConfig.post_init cy inp =
        .error "Either genus or family must be specified") := by
  constructor
  · intro cy inp cfg h
    unfold FilterConfig.post_init at h
    split at h
    · exact absurd h (by simp)
    · rename_i hcond
      cases hg : strTruthy inp.genus
      · cases hf : strTruthy inp.family
        · exact absurd ⟨hg, hf⟩ hcond
        · exact Or.inr rfl
      · exact Or.inl rfl
  · intro cy inp hg hf
    unfold FilterConfig.post_init
    rw [if_pos ⟨hg, hf⟩]

/-- C9 counterexample: supplying both genus and family does not raise —
construction succeeds with both anchors kept, so construction does not
require exactly one anchor. -/
theorem C9_counterexample :
    FilterConfig.post_init 2025 c9input = .ok c9cfg ∧
    strTruthy c9input.genus = true ∧ strTruthy c9input.family = true := by
  refine ⟨rfl, by decide, by decide⟩

/-! ### C3 -/

/-- C3: the end-to-end filter scenario — of the three records with distinct
keys, only the first survives; the second is dropped as `missing_year` and
the third as `uncertainty_exceeded`, giving statistics total 3, kept 1,
missing_year 1, uncertainty_exceeded 1. -/
theorem C3_end_to_end_scenario :
    [c3r1.key, c3r2.key, c3r3.key].Nodup ∧
    FilterConfig.post_init 2025 c3input = .ok c3cfg ∧
    filter_records [c3r1, c3r2, c3r3] c3cfg =
      ([c3r1],
        { total := 3, kept := 1, missing_year := 1,
          uncertainty_exceeded := 1 }) := by
  refine ⟨by decide, rfl, ?_⟩
  rfl

theorem apply_dedup_first (f : RecordFilter) (r : OccurrenceRecord)
    (h1 : f.config.deduplicate = true)
    (h2 : f.seen_keys.contains r.key = true) :
    (f.apply r).1 =
      { keep := false, reason := some "duplicate",
        uncertainty_status := "known" } := by
  unfold RecordFilter.apply
  rw [if_pos (by simp_all)]

theorem apply_missing_year (f : RecordFilter) (r : OccurrenceRecord)
    (h1 : f.config.deduplicate = true → f.seen_keys.contains r.key = false)
    (h2 : f.config.require_year = true) (h3 : r.year = none) :
    (f.apply r).1 =
      { keep := false, reason := some "missing_year",
        uncertainty_status := "known" } := by
  unfold RecordFilter.apply
  rw [if_neg (by
    intro hc
    simp only [Bool.and_eq_true] at hc
    rw [h1 hc.1] at hc
    exact absurd hc.2 (by simp))]
  simp [applyChecks, check_year, h2, h3]

theorem checks_year_too_old (cfg : FilterConfig) (r : OccurrenceRecord)
    (y : Int) (hy : r.year = some y) (h : y < cfg.year_start) :
    applyChecks cfg r =
      { keep := false, reason := some "year_too_old",
        uncertainty_status := "known" } := by
  simp [applyChecks, check_year, hy, h]

theorem checks_year_too_new (cfg : FilterConfig) (r : OccurrenceRecord)
    (y : Int) (hy : r.year = some y) (h1 : ¬ y < cfg.year_start)
    (h2 : cfg.year_end ≠ 0) (h3 : cfg.year_end < y) :
    applyChecks cfg r =
      { keep := false, reason := some "year_too_new",
        uncertainty_status := "known" } := by
  simp [applyChecks, check_year, hy, h1, h2, h3]

theorem checks_missing_elevation (cfg : FilterConfig) (r : OccurrenceRecord)
    (h0 : check_year cfg r = none) (h1 : cfg.require_elevation = true)
    (h2 : r.elevation = none) :
    applyChecks cfg r =
      { keep := false, reason := some "missing_elevation",
        uncertainty_status := "known" } := by
  simp [applyChecks, h0, check_elevation, h1, h2]

theorem checks_uncertainty_exceeded (cfg : FilterConfig)
    (r : OccurrenceRecord) (h0 : check_year cfg r = none)
    (h1 : check_elevation cfg r = none)
    (h2 : check_uncertainty cfg r = "exceeded") :
    applyChecks cfg r =
      { keep := false, reason := some "uncertainty_exceeded",
        uncertainty_status := "exceeded" } := by
  simp [applyChecks, h0, h1, check_uncertainty_step, h2]

theorem checks_species (cfg : FilterConfig) (r : OccurrenceRecord)
    (h0 : check_year cfg r = none) (h1 : check_elevation cfg r = none)
    (h2 : check_uncertainty_step cfg r = none)
    (h3 : cfg.species_list ≠ []) (h4 : matches_species cfg r = false) :
    applyChecks cfg r =
      { keep := false, reason := some "species_not_matched",
        uncertainty_status := "known" } := by
  simp [applyChecks, h0, h1, h2, check_species, h3, h4]

theorem checks_country (cfg : FilterConfig) (r : OccurrenceRecord)
    (h0 : check_year cfg r = none) (h1 : check_elevation cfg r = none)
    (h2 : check_uncertainty_step cfg r = none)
    (h3 : check_species cfg r = none) (h4 : cfg.countries ≠ [])
    (h5 : cfg.countries.any
      (fun c => substrOf c ((r.country.getD "").toUpper)) = false) :
    applyChecks cfg r =
      { keep := false, reason := some "country_not_matched",
        uncertainty_status := "known" } := by
  simp [applyChecks, h0, h1, h2, h3, check_country, h4, h5]

theorem checks_institution (cfg : FilterConfig) (r : OccurrenceRecord)
    (h0 : check_year cfg r = none) (h1 : check_elevation cfg r = none)
    (h2 : check_uncertainty_step cfg r = none)
    (h3 : check_species cfg r = none) (h4 : check_country cfg r = none)
    (h5 : cfg.institutions ≠ [])
    (h6 : cfg.institutions.any
      (fun i => substrOf i ((r.institution_code.getD "").toLower)) = false) :
    applyChecks cfg r =
      { keep := false, reason := some "institution_not_matched",
        uncertainty_status := "known" } := by
  simp [applyChecks, h0, h1, h2, h3, h4, check_institution, h5, h6]

theorem checks_keep (cfg : FilterConfig) (r : OccurrenceRecord)
    (h0 : check_year cfg r = none) (h1 : check_elevation cfg r = none)
    (h2 : check_uncertainty_step cfg r = none)
    (h3 : check_species cfg r = none) (h4 : check_country cfg r = none)
    (h5 : check_institution cfg r = none) :
    applyChecks cfg r =
      { keep := true, reason := none,
        uncertainty_status := check_uncertainty cfg r } := by
  simp [applyChecks, h0, h1, h2, h3, h4, h5]

theorem apply_not_dup (f : RecordFilter) (r : OccurrenceRecord)
    (h : ¬(f.config.deduplicate = true ∧ f.seen_keys.contains r.key = true)) :
    (f.apply r).1 = applyChecks f.config r := by
  unfold RecordFilter.apply
  rw [if_neg (by intro hc; exact h (by simpa using hc))]

theorem unc_known (cfg : FilterConfig) (r : OccurrenceRecord) (q : ℚ)
    (hu : r.coordinate_uncertainty = some (.num q))
    (hle : q ≤ (cfg.uncertainty_max : ℚ)) :
    check_uncertainty cfg r = "known" := by
  simp [check_uncertainty, hu, hle]

theorem unc_exceeded (cfg : FilterConfig) (r : OccurrenceRecord) (q : ℚ)
    (hu : r.coordinate_uncertainty = some (.num q))
    (hle : ¬ q ≤ (cfg.uncertainty_max : ℚ)) :
    check_uncertainty cfg r = "exceeded" := by
  simp [check_uncertainty, hu, hle]

theorem unc_unknown (cfg : FilterConfig) (r : OccurrenceRecord)
    (hu : r.coordinate_uncertainty = none ∨
      r.coordinate_uncertainty = some .nonNumeric) :
    check_uncertainty cfg r = "unknown" := by
  rcases hu with hu | hu <;> simp [check_uncertainty, hu]

theorem unc_step_of_known (cfg : FilterConfig) (r : OccurrenceRecord)
    (h : check_uncertainty cfg r = "known") :
    check_uncertainty_step cfg r = none := by
  simp [check_uncertainty_step, h]

theorem unc_step_of_unknown_keep (cfg : FilterConfig) (r : OccurrenceRecord)
    (h : check_uncertainty cfg r = "unknown")
    (hk : cfg.keep_unknown_uncertainty = true) :
    check_uncertainty_step cfg r = none := by
  simp [check_uncertainty_step, h, hk]

theorem unc_step_of_unknown_drop (cfg : FilterConfig) (r : OccurrenceRecord)
    (h : check_uncertainty cfg r = "unknown")
    (hk : cfg.keep_unknown_uncertainty = false) :
    check_uncertainty_step cfg r =
      some { keep := false, reason := some "uncertainty_unknown",
             uncertainty_status := "unknown" } := by
  simp [check_uncertainty_step, h, hk]

theorem unc_step_of_exceeded (cfg : FilterConfig) (r : OccurrenceRecord)
    (h : check_uncertainty cfg r = "exceeded") :
    check_uncertainty_step cfg r =
      some { keep := false, reason := some "uncertainty_exceeded",
             uncertainty_status := "exceeded" } := by
  simp [check_uncertainty_step, h]

/-- C6: for a record passing the other checks, an uncertainty exactly
equal to `uncertainty_max` is classified known and kept (inclusive upper
bound); one unit above is dropped as `uncertainty_exceeded`; an absent or
non-numeric uncertainty is classified unknown and is dropped as
`uncertainty_unknown` exactly when `keep_unknown_uncertainty` is false,
and kept carrying status unknown when it is true. -/
theorem C6_uncertainty_boundary :
    ∀ (f : RecordFilter) (r : OccurrenceRecord), passes_other_checks f r →
      (r.coordinate_uncertainty =
          some (.num (f.config.uncertainty_max : ℚ)) →
        (f.apply r).1 =
          { keep := true, reason := none, uncertainty_status := "known" }) ∧
      (r.coordinate_uncertainty =
          some (.num ((f.config.uncertainty_max : ℚ) + 1)) →
        (f.apply r).1 =
          { keep := false, reason := some "uncertainty_exceeded",
            uncertainty_status := "exceeded" }) ∧
      ((r.coordinate_uncertainty = none ∨
          r.coordinate_uncertainty = some .nonNumeric) →
        f.config.keep_unknown_uncertainty = false →
        (f.apply r).1 =
          { keep := false, reason := some "uncertainty_unknown",
            uncertainty_status := "unknown" }) ∧
      ((r.coordinate_uncertainty = none ∨
          r.coordinate_uncertainty = some .nonNumeric) →
        f.config.keep_unknown_uncertainty = true →
        (f.apply r).1 =
          { keep := true, reason := none,
            uncertainty_status := "unknown" }) := by
  intro f r hp
  obtain ⟨hnd, hy, he, hs, hc, hi⟩ := hp
  refine ⟨?_, ?_, ?_, ?_⟩
  · intro hu
    have hk := unc_known f.config r _ hu le_rfl
    rw [apply_not_dup f r hnd,
      checks_keep f.config r hy he (unc_step_of_known f.config r hk) hs hc hi,
      hk]
  · intro hu
    have hk := unc_exceeded f.config r _ hu (by
      intro habs
      have : (0 : ℚ) < 1 := one_pos
      linarith)
    rw [apply_not_dup f r hnd]
    rw [checks_uncertainty_exceeded f.config r hy he hk]
  · intro hu hkeep
    have hk := unc_unknown f.config r hu
    rw [apply_not_dup f r hnd]
    rw [show applyChecks f.config r =
      { keep := false, reason := some "uncertainty_unknown",
        uncertainty_status := "unknown" } from by
      simp [applyChecks, hy, he, unc_step_of_unknown_drop f.config r hk hkeep]]
  · intro hu hkeep
    have hk := unc_unknown f.config r hu
    rw [apply_not_dup f r hnd,
      checks_keep f.config r hy he
        (unc_step_of_unknown_keep f.config r hk hkeep) hs hc hi, hk]

/-- C5: `RecordFilter.apply` evaluates the checks in the fixed order
deduplication, required-year, year-range, required-elevation,
coordinate-uncertainty, species, country, institution, and the first
failing check determines the reason code; in particular a record missing
both year and elevation under `require_year` and `require_elevation` is
dropped as `missing_year`, never as `missing_elevation`. -/
theorem C5_reason_precedence :
    (∀ (f : RecordFilter) (r : OccurrenceRecord),
      f.config.deduplicate = true → f.seen_keys.contains r.key = true →
      (f.apply r).1 =
        { keep := false, reason := some "duplicate",
          uncertainty_status := "known" }) ∧
    (∀ (f : RecordFilter) (r : OccurrenceRecord),
      (f.config.deduplicate = true → f.seen_keys.contains r.key = false) →
      f.config.require_year = true → f.config.require_elevation = true →
      r.year = none → r.elevation = none →
      (f.apply r).1.reason = some "missing_year" ∧
      (f.apply r).1.reason ≠ some "missing_elevation") ∧
    (∀ (f : RecordFilter) (r : OccurrenceRecord),
      (f.config.deduplicate = true → f.seen_keys.contains r.key = false) →
      f.config.require_year = true → r.year = none →
      (f.apply r).1 =
        { keep := false, reason := some "missing_year",
          uncertainty_status := "known" }) ∧
    (∀ (cfg : FilterConfig) (r : OccurrenceRecord) (y : Int),
      r.year = some y → y < cfg.year_start →
      applyChecks cfg r =
        { keep := false, reason := some "year_too_old",
          uncertainty_status := "known" }) ∧
    (∀ (cfg : FilterConfig) (r : OccurrenceRecord) (y : Int),
      r.year = some y → ¬ y < cfg.year_start → cfg.year_end ≠ 0 →
      cfg.year_end < y →
      applyChecks cfg r =
        { keep := false, reason := some "year_too_new",
          uncertainty_status := "known" }) ∧
    (∀ (cfg : FilterConfig) (r : OccurrenceRecord),
      check_year cfg r = none → cfg.require_elevation = true →
      r.elevation = none →
      applyChecks cfg r =
        { keep := false, reason := some "missing_elevation",
          uncertainty_status := "known" }) ∧
    (∀ (cfg : FilterConfig) (r : OccurrenceRecord),
      check_year cfg r = none → check_elevation cfg r = none →
      check_uncertainty cfg r = "exceeded" →
      applyChecks cfg r =
        { keep := false, reason := some "uncertainty_exceeded",
          uncertainty_status := "exceeded" }) ∧
    (∀ (cfg : FilterConfig) (r : OccurrenceRecord),
      check_year cfg r = none → check_elevation cfg r = none →
      check_uncertainty_step cfg r = none → cfg.species_list ≠ [] →
      matches_species cfg r = false →
      applyChecks cfg r =
        { keep := false, reason := some "species_not_matched",
          uncertainty_status := "known" }) ∧
    (∀ (cfg : FilterConfig) (r : OccurrenceRecord),
      check_year cfg r = none → check_elevation cfg r = none →
      check_uncertainty_step cfg r = none → check_species cfg r = none →
      cfg.countries ≠ [] →
      cfg.countries.any
        (fun c => substrOf c ((r.country.getD "").toUpper)) = false →
      applyChecks cfg r =
        { keep := false, reason := some "country_not_matched",
          uncertainty_status := "known" }) ∧
    (∀ (cfg : FilterConfig) (r : OccurrenceRecord),
      check_year cfg r = none → check_elevation cfg r = none →
      check_uncertainty_step cfg r = none → check_species cfg r = none →
      check_country cfg r = none → cfg.institutions ≠ [] →
      cfg.institutions.any
        (fun i => substrOf i ((r.institution_code.getD "").toLower)) = false →
      applyChecks cfg r =
        { keep := false, reason := some "institution_not_matched",
          uncertainty_status := "known" }) ∧
    (∀ (cfg : FilterConfig) (r : OccurrenceRecord),
      check_year cfg r = none → check_elevation cfg r = none →
      check_uncertainty_step cfg r = none → check_species cfg r = none →
      check_country cfg r = none → check_institution cfg r = none →
      applyChecks cfg r =
        { keep := true, reason := none,
          uncertainty_status := check_uncertainty cfg r }) := by
  refine ⟨apply_dedup_first, ?_, apply_missing_year, checks_year_too_old,
    checks_year_too_new, checks_missing_elevation,
    checks_uncertainty_exceeded, checks_species, checks_country,
    checks_institution, checks_keep⟩
  intro f r h1 h2 h3 h4 h5
  rw [apply_missing_year f r h1 h2 h4]
  exact ⟨rfl, by simp⟩

/-- C8: with deduplication enabled, a record satisfying every other
criterion is kept on the first application and dropped as `duplicate` on
the second; with deduplication disabled the state does not change and both
applications keep it. -/
theorem C8_dedup_toggle :
    (∀ (cfg : FilterConfig) (r : OccurrenceRecord),
      cfg.deduplicate = true → (applyChecks cfg r).keep = true →
      ((RecordFilter.init cfg).apply r).1.keep = true ∧
      (((RecordFilter.init cfg).apply r).2.apply r).1 =
        { keep := false, reason := some "duplicate",
          uncertainty_status := "known" }) ∧
    (∀ (cfg : FilterConfig) (r : OccurrenceRecord),
      cfg.deduplicate = false →
      (RecordFilter.init cfg).apply r =
        (applyChecks cfg r, RecordFilter.init cfg) ∧
      (((RecordFilter.init cfg).apply r).2.apply r).1 =
        applyChecks cfg r) := by
  constructor
  · intro cfg r hd hkeep
    have h1 : (RecordFilter.init cfg).apply r =
        (applyChecks cfg r, { config := cfg, seen_keys := [r.key] }) := by
      unfold RecordFilter.apply RecordFilter.init
      simp [hd]
    rw [h1]
    refine ⟨hkeep, ?_⟩
    unfold RecordFilter.apply
    rw [if_pos (by simp [hd])]
  · intro cfg r hd
    have h1 : (RecordFilter.init cfg).apply r =
        (applyChecks cfg r, RecordFilter.init cfg) := by
      unfold RecordFilter.apply
      simp [RecordFilter.init, hd]
    exact ⟨h1, by rw [h1, h1]⟩

/-- C10: with deduplication enabled, `apply` records the key before any
later check runs, so a second application of the same key is dropped as
`duplicate` even when the first application itself was dropped for a later
reason (concretely: `missing_year`) and no application ever kept the
record. -/
theorem C10_seen_before_later_checks :
    (∀ (f : RecordFilter) (r1 r2 : OccurrenceRecord),
      f.config.deduplicate = true → f.seen_keys.contains r1.key = false →
      r2.key = r1.key →
      (f.apply r1).2.seen_keys.contains r1.key = true ∧
      ((f.apply r1).2.apply r2).1 =
        { keep := false, reason := some "duplicate",
          uncertainty_status := "known" }) ∧
    (((RecordFilter.init c10cfg).apply c10r).1 =
      { keep := false, reason := some "missing_year",
        uncertainty_status := "known" } ∧
     (((RecordFilter.init c10cfg).apply c10r).2.apply c10r).1 =
      { keep := false, reason := some "duplicate",
        uncertainty_status := "known" }) := by
  constructor
  · intro f r1 r2 hd hns hk
    have h1 : (f.apply r1).2 =
        { f with seen_keys := r1.key :: f.seen_keys } := by
      unfold RecordFilter.apply
      rw [if_neg (by simp [hns]; intro; simp_all)]
      simp [hd]
    rw [h1]
    constructor
    · simp
    · unfold RecordFilter.apply
      rw [if_pos (by simp [hd, hk])]
  · exact ⟨rfl, rfl⟩

theorem data_append (a b : String) : (a ++ b).data = a.data ++ b.data := rfl

theorem hasPrefixChars_self_append (s t : List Char) :
    hasPrefixChars s (s ++ t) = true := by
  induction s with
  | nil => rfl
  | cons a as ih => simp [hasPrefixChars, ih]

theorem hasSubstr_middle (s A B : List Char) :
    hasSubstrChars s (A ++ (s ++ B)) = true := by
  induction A with
  | nil =>
    simp only [List.nil_append]
    cases s with
    | nil =>
      cases B with
      | nil => rfl
      | cons b bs => simp [hasSubstrChars, hasPrefixChars]
    | cons a as =>
      simp [hasSubstrChars, hasPrefixChars,
        hasPrefixChars_self_append as (B)]
  | cons c A' ih =>
    simp [hasSubstrChars, ih]

theorem hasSubstr_middle2 (s A1 A2 B : List Char) :
    hasSubstrChars s (A1 ++ (A2 ++ (s ++ B))) = true := by
  rw [← List.append_assoc]
  exact hasSubstr_middle s (A1 ++ A2) B

theorem substr_rank_msg (name mrank mcanon rk : String) :
    substrOf mrank (rankMismatchMsg name mrank mcanon rk) = true := by
  unfold rankMismatchMsg substrOf
  simp only [data_append, List.append_assoc]
  exact hasSubstr_middle2 _ _ _ _

/-- C7: `match_taxon` fails with `TaxonNotFoundError` for every response
whose match-type is NONE; under strict mode with an expected rank it also
fails when the returned rank differs (with a message naming the actual
matched rank, witnessed by the substring conjunct) and when the canonical
name differs case-insensitively from the requested name; non-strict mode
bypasses both validations and returns the match. -/
theorem C7_taxon_resolution :
    (∀ (name : String) (rank : Option String) (strict : Bool)
        (d : TaxonMatchData),
      (TaxonMatch.from_api_response d).match_type = "NONE" →
      match_taxon name rank strict d =
        .error (.taxonNotFound (taxonNotFoundMsg name))) ∧
    (∀ (name rk : String) (d : TaxonMatchData),
      (TaxonMatch.from_api_response d).match_type ≠ "NONE" → rk ≠ "" →
      (TaxonMatch.from_api_response d).rank ≠ rk →
      match_taxon name (some rk) true d =
        .error (.taxonNotFound (rankMismatchMsg name
          (TaxonMatch.from_api_response d).rank
          (TaxonMatch.from_api_response d).canonical_name rk)) ∧
      substrOf (TaxonMatch.from_api_response d).rank
        (rankMismatchMsg name (TaxonMatch.from_api_response d).rank
          (TaxonMatch.from_api_response d).canonical_name rk) = true) ∧
    (∀ (name rk : String) (d : TaxonMatchData),
      (TaxonMatch.from_api_response d).match_type ≠ "NONE" → rk ≠ "" →
      (TaxonMatch.from_api_response d).rank = rk →
      (TaxonMatch.from_api_response d).canonical_name.toLower ≠
        name.toLower →
      match_taxon name (some rk) true d =
        .error (.taxonNotFound (nameMismatchMsg name
          (TaxonMatch.from_api_response d).canonical_name
          (TaxonMatch.from_api_response d).rank))) ∧
    (∀ (name : String) (rank : Option String) (d : TaxonMatchData),
      (TaxonMatch.from_api_response d).match_type ≠ "NONE" →
      match_taxon name rank false d =
        .ok (TaxonMatch.from_api_response d)) := by
  refine ⟨?_, ?_, ?_, ?_⟩
  · intro name rank strict d h
    unfold match_taxon
    rw [if_pos h]
  · intro name rk d h0 h1 h2
    refine ⟨?_, substr_rank_msg _ _ _ _⟩
    unfold match_taxon
    rw [if_neg h0]
    simp only
    rw [if_pos ⟨trivial, h1⟩, if_pos h2]
  · intro name rk d h0 h1 h2 h3
    unfold match_taxon
    rw [if_neg h0]
    simp only
    rw [if_pos ⟨trivial, h1⟩, if_neg (by simp [h2]), if_pos h3]
  · intro name rank d h0
    unfold match_taxon
    rw [if_neg h0]
    cases rank with
    | none => rfl
    | some rk => simp

theorem yearPageLoop_succ (api : Int → Int → Except GBIFError SearchPage)
    (stop_check : Option (Nat → Bool)) (ps year : Int) (fuel : Nat)
    (offset : Int) (st : FetchState) :
    yearPageLoop api stop_check ps year (fuel + 1) offset st =
      (if pollStop stop_check st.polls then bumpPolls stop_check st
       else
         let st2 := { bumpPolls stop_check st with
           requests := (bumpPolls stop_check st).requests ++ [(year, offset)] }
         match api year offset with
         | .error _ => st2
         | .ok data =>
           if data.results = [] then st2
           else
             let st3 := ingestResults st2 data.results
             if data.endOfRecords || (data.results.length : Int) < ps then st3
             else if offset + ps ≥ MAX_OFFSET then st3
             else yearPageLoop api stop_check ps year fuel (offset + ps) st3) :=
  rfl

theorem ingestResults_requests (st : FetchState)
    (items : List OccurrenceData) :
    (ingestResults st items).requests = st.requests := by
  induction items generalizing st with
  | nil => rfl
  | cons item rest ih =>
    unfold ingestResults
    dsimp only
    split
    · exact ih st
    · exact ih _

theorem ingestResults_polls (st : FetchState) (items : List OccurrenceData) :
    (ingestResults st items).polls = st.polls := by
  induction items generalizing st with
  | nil => rfl
  | cons item rest ih =>
    unfold ingestResults
    dsimp only
    split
    · exact ih st
    · exact ih _

theorem yearPageLoop_stops (api : Int → Int → Except GBIFError SearchPage)
    (ps year offset : Int) (st : FetchState) (data : SearchPage) (fuel : Nat)
    (hapi : api year offset = .ok data)
    (hstop : data.endOfRecords = true ∨ (data.results.length : Int) < ps ∨
      data.results = [] ∨ MAX_OFFSET ≤ offset + ps) :
    (yearPageLoop api none ps year (fuel + 1) offset st).requests =
      st.requests ++ [(year, offset)] := by
  rw [yearPageLoop_succ]
  simp only [pollStop, bumpPolls, if_neg Bool.false_ne_true]
  rw [hapi]
  dsimp only
  by_cases hres : data.results = []
  · rw [if_pos hres]
  · rw [if_neg hres]
    by_cases hshort :
      (data.endOfRecords || decide ((data.results.length : Int) < ps)) = true
    · rw [if_pos hshort, ingestResults_requests]
    · have hceil : MAX_OFFSET ≤ offset + ps := by
        simp only [Bool.or_eq_true, decide_eq_true_eq, not_or] at hshort
        rcases hstop with h | h | h | h
        · exact absurd h hshort.1
        · exact absurd h hshort.2
        · exact absurd h hres
        · exact h
      rw [if_neg hshort, if_pos (show offset + ps ≥ MAX_OFFSET from hceil),
        ingestResults_requests]

theorem yearPageLoop_zero (api : Int → Int → Except GBIFError SearchPage)
    (stop_check : Option (Nat → Bool)) (ps year offset : Int)
    (st : FetchState) :
    yearPageLoop api stop_check ps year 0 offset st = st := rfl

theorem yearPageLoop_continues
    (api : Int → Int → Except GBIFError SearchPage)
    (ps year offset : Int) (st : FetchState) (data : SearchPage) (fuel : Nat)
    (hapi : api year offset = .ok data) (hres : data.results ≠ [])
    (hend : data.endOfRecords = false)
    (hlen : ¬ (data.results.length : Int) < ps)
    (hlt : offset + ps < MAX_OFFSET) :
    yearPageLoop api none ps year (fuel + 1) offset st =
      yearPageLoop api none ps year fuel (offset + ps)
        (ingestResults { st with requests := st.requests ++ [(year, offset)] }
          data.results) := by
  rw [yearPageLoop_succ]
  simp only [pollStop, bumpPolls, if_neg Bool.false_ne_true]
  rw [hapi]
  dsimp only
  rw [if_neg hres, if_neg (by simp [hend, hlen]),
    if_neg (not_le.mpr hlt)]

theorem yearPageLoop_error (api : Int → Int → Except GBIFError SearchPage)
    (ps year offset : Int) (st : FetchState) (e : GBIFError) (fuel : Nat)
    (hapi : api year offset = .error e) :
    yearPageLoop api none ps year (fuel + 1) offset st =
      { st with requests := st.requests ++ [(year, offset)] } := by
  rw [yearPageLoop_succ]
  simp only [pollStop, bumpPolls, if_neg Bool.false_ne_true]
  rw [hapi]

theorem yearPageLoop_requests_head
    (api : Int → Int → Except GBIFError SearchPage) (ps year : Int) :
    ∀ (fuel : Nat) (offset : Int) (st : FetchState),
    ∃ t, (yearPageLoop api none ps year (fuel + 1) offset st).requests =
      st.requests ++ (year, offset) :: t := by
  intro fuel
  induction fuel with
  | zero =>
    intro offset st
    rw [yearPageLoop_succ]
    simp only [pollStop, bumpPolls, if_neg Bool.false_ne_true]
    cases hapi : api year offset with
    | error e => exact ⟨[], rfl⟩
    | ok data =>
      dsimp only
      by_cases hres : data.results = []
      · rw [if_pos hres]
        exact ⟨[], rfl⟩
      · rw [if_neg hres]
        by_cases hcond : (data.endOfRecords ||
            decide ((data.results.length : Int) < ps)) = true
        · rw [if_pos hcond]
          exact ⟨[], by rw [ingestResults_requests]⟩
        · rw [if_neg hcond]
          by_cases hceil : offset + ps ≥ MAX_OFFSET
          · rw [if_pos hceil]
            exact ⟨[], by rw [ingestResults_requests]⟩
          · rw [if_neg hceil, yearPageLoop_zero]
            exact ⟨[], by rw [ingestResults_requests]⟩
  | succ fuel ih =>
    intro offset st
    rw [yearPageLoop_succ]
    simp only [pollStop, bumpPolls, if_neg Bool.false_ne_true]
    cases hapi : api year offset with
    | error e => exact ⟨[], rfl⟩
    | ok data =>
      dsimp only
      by_cases hres : data.results = []
      · rw [if_pos hres]
        exact ⟨[], rfl⟩
      · rw [if_neg hres]
        by_cases hcond : (data.endOfRecords ||
            decide ((data.results.length : Int) < ps)) = true
        · rw [if_pos hcond]
          exact ⟨[], by rw [ingestResults_requests]⟩
        · rw [if_neg hcond]
          by_cases hceil : offset + ps ≥ MAX_OFFSET
          · rw [if_pos hceil]
            exact ⟨[], by rw [ingestResults_requests]⟩
          · rw [if_neg hceil]
            obtain ⟨t, ht⟩ := ih (offset + ps) (ingestResults
              { st with requests := st.requests ++ [(year, offset)] }
              data.results)
            refine ⟨(year, offset + ps) :: t, ?_⟩
            rw [ht, ingestResults_requests]
            simp

theorem yearsLoop_cons (api : Int → Int → Except GBIFError SearchPage)
    (ps year : Int) (years : List Int) (st : FetchState) :
    yearsLoop api none ps (year :: years) st =
      yearsLoop api none ps years
        (yearPageLoop api none ps year pageFuel 0 st) := rfl

/-- C1: on the mocked single-year two-page sequence whose last page
reports end of records, `iter_occurrences_by_year` yields exactly the two
pages of records in page order with no duplicate keys, requesting offsets
0 and then 0 plus the page size; in general a page loop step stops exactly
on end-of-records, a short page, an empty page, or the advanced offset
reaching the 100000 ceiling, and otherwise requests the next page at the
offset advanced by the page size. -/
theorem C1_year_bucketed_fetch :
    (iter_occurrences_by_year (.ok 4) c1api 2025 2 2020 (some 2020) none =
      .ok { seen_keys := [14, 13, 12, 11]
            yielded := (c1page1.results ++ c1page2.results).map
              OccurrenceRecord.from_api_response
            requests := [(2020, 0), (2020, 2)]
            polls := 0 }) ∧
    ((((c1page1.results ++ c1page2.results).map
        OccurrenceRecord.from_api_response).map OccurrenceRecord.key).Nodup) ∧
    (∀ (api : Int → Int → Except GBIFError SearchPage)
        (ps year offset : Int) (st : FetchState) (data : SearchPage)
        (fuel : Nat),
      api year offset = .ok data →
      (data.endOfRecords = true ∨ (data.results.length : Int) < ps ∨
        data.results = [] ∨ MAX_OFFSET ≤ offset + ps) →
      (yearPageLoop api none ps year (fuel + 1) offset st).requests =
        st.requests ++ [(year, offset)]) ∧
    (∀ (api : Int → Int → Except GBIFError SearchPage)
        (ps year offset : Int) (st : FetchState) (data : SearchPage)
        (fuel : Nat),
      api year offset = .ok data → data.results ≠ [] →
      data.endOfRecords = false → ¬ (data.results.length : Int) < ps →
      offset + ps < MAX_OFFSET →
      ∃ t, (yearPageLoop api none ps year (fuel + 2) offset st).requests =
        st.requests ++ (year, offset) :: (year, offset + ps) :: t) := by
  refine ⟨rfl, by decide, yearPageLoop_stops, ?_⟩
  intro api ps year offset st data fuel hapi hres hend hlen hlt
  rw [yearPageLoop_continues api ps year offset st data (fuel + 1) hapi hres
    hend hlen hlt]
  obtain ⟨t, ht⟩ := yearPageLoop_requests_head api ps year fuel (offset + ps)
    (ingestResults { st with requests := st.requests ++ [(year, offset)] }
      data.results)
  refine ⟨t, ?_⟩
  rw [ht, ingestResults_requests]
  simp

/-- C2 (amended): an `APIError` on a page request ends only that year
(the request trace gains just that one request) and the outer loop
continues with the subsequent years, still yielding records fetched in
other years; when every year fails, the run still completes normally with
zero records — the last error is only logged, not surfaced to the
caller. -/
theorem C2_error_containment :
    (∀ (api : Int → Int → Except GBIFError SearchPage)
        (ps year offset : Int) (st : FetchState) (e : GBIFError)
        (fuel : Nat),
      api year offset = .error e →
      yearPageLoop api none ps year (fuel + 1) offset st =
        { st with requests := st.requests ++ [(year, offset)] }) ∧
    (∀ (api : Int → Int → Except GBIFError SearchPage) (ps year : Int)
        (years : List Int) (st : FetchState),
      yearsLoop api none ps (year :: years) st =
        yearsLoop api none ps years
          (yearPageLoop api none ps year pageFuel 0 st)) ∧
    (iter_occurrences_by_year (.ok 4) c2api 2025 2 2020 (some 2021) none =
      .ok { seen_keys := [22, 21]
            yielded := c2page.results.map OccurrenceRecord.from_api_response
            requests := [(2020, 0), (2021, 0)]
            polls := 0 }) ∧
    (iter_occurrences_by_year (.ok 4) c2errApi 2025 2 2020 (some 2021) none =
      .ok { seen_keys := []
            yielded := []
            requests := [(2020, 0), (2021, 0)]
            polls := 0 }) := by
  exact ⟨yearPageLoop_error, yearsLoop_cons, rfl, rfl⟩

/-- C2 counterexample: when every page request fails and the run yields
zero records, `iter_occurrences_by_year` still returns normally with an
empty yield — no error value is surfaced to the caller, contrary to the
claim. -/
theorem C2_counterexample :
    iter_occurrences_by_year (.ok 4) c2errApi 2025 2 2020 (some 2021) none =
      .ok { seen_keys := []
            yielded := []
            requests := [(2020, 0), (2021, 0)]
            polls := 0 } := rfl

/-- C6 witness: a concrete record at the inclusive boundary is kept. -/
theorem C6_uncertainty_boundary_witness :
    ((RecordFilter.init c10cfg).apply
        { key := 5, year := some 2020, elevation := some 100,
          coordinate_uncertainty := some (.num 1000) }).1 =
      { keep := true, reason := none, uncertainty_status := "known" } :=
  (C6_uncertainty_boundary (RecordFilter.init c10cfg)
    { key := 5, year := some 2020, elevation := some 100,
      coordinate_uncertainty := some (.num 1000) }
    (by refine ⟨by decide, rfl, rfl, rfl, rfl, rfl⟩)).1 (by
      show _ = some (.num ((1000 : Int) : ℚ))
      norm_num)
